import Mathlib

/-!
Verification of the work-session-manager timer core.

This file gives a shallow embedding of the two core modules of the
repository, `timerManager.ts` (the `TimerManager` state machine) and
`stateManager.ts` (the `StateManager` persistence gateway), and proves
properties of the embedded definitions.

Modelling conventions:
- JS numbers that the code only ever treats as integers are embedded as
  `Int`.  `NaN` is modelled by `Option Int` (with `none` standing for
  `NaN`) in the persistence layer, where an unparsable timestamp can
  introduce it; the timer engine itself never manufactures `NaN` from
  integer inputs, so its fields are plain `Int`.
- `Date` values are collapsed to their epoch-millisecond time value.
  Operations that call `new Date()` or `Date.now()` take the current
  time as an explicit `now : Int` parameter.
- The `setInterval` handle (`intervalId`) is modelled by a `Bool` flag
  `running` on the engine: `startTimer` sets it, `stopTimer` clears it.
- Event emission (`stateChange` and `timerComplete`) is modelled by
  returning the list of emitted `TimerEventData` values in emission
  order; `timerComplete` events are exactly those with
  `isTransition = true`.
-/

/-- The TimerState enum from types.ts. -/
inductive TimerState where
  | idle
  | work_session
  | rest_period
  | paused
deriving DecidableEq

/-- The TimerContext interface from types.ts: the in-memory engine state.
Timestamps are epoch milliseconds. -/
structure TimerContext where
  currentState : TimerState
  remainingTime : Int
  sessionDuration : Int
  restDuration : Int
  pausedAt : Option Int
  sessionStartTime : Option Int
deriving DecidableEq

/-- The TimerEventData interface from types.ts, as emitted by
emitStateChange. -/
structure TimerEventData where
  state : TimerState
  remainingTime : Int
  isTransition : Bool
deriving DecidableEq

/-- A TimerManager instance: its context plus whether the interval timer
is currently scheduled (intervalId not null). -/
structure Engine where
  context : TimerContext
  running : Bool
deriving DecidableEq

namespace TimerManager

/-- The TimerManager constructor: IDLE, remaining 0, the given durations
stored verbatim (the constructor performs no validation). -/
def initEngine (sessionDuration restDuration : Int) : Engine :=
  { context :=
      { currentState := .idle
        remainingTime := 0
        sessionDuration := sessionDuration
        restDuration := restDuration
        pausedAt := none
        sessionStartTime := none }
    running := false }

/-- emitStateChange builds one event from the current context. -/
def mkEvent (c : TimerContext) (isTransition : Bool) : TimerEventData :=
  { state := c.currentState, remainingTime := c.remainingTime, isTransition := isTransition }

/-- The timerComplete events among a list of emitted events. -/
def completions (evs : List TimerEventData) : List TimerEventData :=
  evs.filter (fun ev => ev.isTransition)

/-- TimerManager.startSession: stop the timer, enter WORK_SESSION with
remaining = sessionDuration * 60, stamp sessionStartTime, clear pausedAt,
start the timer, emit a state change. -/
def startSession (e : Engine) (now : Int) : Engine × List TimerEventData :=
  let c := { e.context with
               currentState := .work_session
               remainingTime := e.context.sessionDuration * 60
               sessionStartTime := some now
               pausedAt := none }
  (⟨c, true⟩, [mkEvent c false])

/-- TimerManager.startRest: like startSession but REST_PERIOD with
remaining = restDuration * 60. -/
def startRest (e : Engine) (now : Int) : Engine × List TimerEventData :=
  let c := { e.context with
               currentState := .rest_period
               remainingTime := e.context.restDuration * 60
               sessionStartTime := some now
               pausedAt := none }
  (⟨c, true⟩, [mkEvent c false])

/-- TimerManager.pause: only from WORK_SESSION or REST_PERIOD; stops the
timer, stamps pausedAt, leaves sessionStartTime untouched. -/
def pause (e : Engine) (now : Int) : Engine × List TimerEventData :=
  if e.context.currentState = .work_session ∨ e.context.currentState = .rest_period then
    let c := { e.context with currentState := .paused, pausedAt := some now }
    (⟨c, false⟩, [mkEvent c false])
  else
    (e, [])

/-- TimerManager.resume: only from PAUSED with pausedAt set.  The state
to resume into is inferred: WORK_SESSION if remainingTime > 0 and
sessionStartTime is set, REST_PERIOD if remainingTime > 0 and
sessionStartTime is unset, IDLE otherwise.  The timer restarts unless
the inferred state is IDLE. -/
def resume (e : Engine) : Engine × List TimerEventData :=
  if e.context.currentState = .paused ∧ e.context.pausedAt ≠ none then
    let previousState : TimerState :=
      if e.context.remainingTime > 0 then
        (if e.context.sessionStartTime ≠ none then .work_session else .rest_period)
      else .idle
    let c := { e.context with currentState := previousState, pausedAt := none }
    (⟨c, if previousState ≠ .idle then true else e.running⟩, [mkEvent c false])
  else
    (e, [])

/-- TimerManager.reset: stop the timer, return to IDLE with remaining 0
and both timestamps cleared. -/
def reset (e : Engine) : Engine × List TimerEventData :=
  let c := { e.context with
               currentState := .idle
               remainingTime := 0
               sessionStartTime := none
               pausedAt := none }
  (⟨c, false⟩, [mkEvent c false])

/-- TimerManager.handleTimerCompletion: stop the timer; if the phase was
WORK_SESSION or REST_PERIOD, first emit a transition event tagged with
that phase, then move to IDLE clearing remaining and sessionStartTime;
finally emit an ordinary state change. -/
def handleTimerCompletion (e : Engine) : Engine × List TimerEventData :=
  let cur := e.context.currentState
  if cur = .work_session ∨ cur = .rest_period then
    let ev1 := mkEvent e.context true
    let c := { e.context with
                 currentState := .idle
                 remainingTime := 0
                 sessionStartTime := none }
    (⟨c, false⟩, [ev1, mkEvent c false])
  else
    (⟨e.context, false⟩, [mkEvent e.context false])

/-- TimerManager.tick: decrement and emit while remainingTime > 0,
otherwise run completion handling. -/
def tick (e : Engine) : Engine × List TimerEventData :=
  if e.context.remainingTime > 0 then
    let c := { e.context with remainingTime := e.context.remainingTime - 1 }
    (⟨c, e.running⟩, [mkEvent c false])
  else
    handleTimerCompletion e

/-- Iterate tick n times, concatenating the emitted events. -/
def tickN (e : Engine) : Nat → Engine × List TimerEventData
  | 0 => (e, [])
  | n + 1 =>
    let step := tick e
    let rest := tickN step.1 n
    (rest.1, step.2 ++ rest.2)

/-- TimerManager.updateDurations: store the new durations verbatim; if a
phase is running and its duration changed, rescale remaining time by
preserving elapsed time, completing immediately when the rescaled
remaining is 0; while PAUSED, infer which phase was paused by comparing
remaining time against the old rest duration. -/
def updateDurations (e : Engine) (sessionDuration restDuration : Int) :
    Engine × List TimerEventData :=
  let oldSessionDuration := e.context.sessionDuration
  let oldRestDuration := e.context.restDuration
  let c0 := { e.context with
                sessionDuration := sessionDuration
                restDuration := restDuration }
  if c0.currentState = .idle then
    (⟨c0, e.running⟩, [])
  else if c0.currentState = .work_session then
    if oldSessionDuration ≠ sessionDuration then
      let elapsedTime := oldSessionDuration * 60 - c0.remainingTime
      let newTotalTime := sessionDuration * 60
      let c1 := { c0 with remainingTime := max 0 (newTotalTime - elapsedTime) }
      if c1.remainingTime = 0 then
        handleTimerCompletion ⟨c1, e.running⟩
      else
        (⟨c1, e.running⟩, [mkEvent c1 false])
    else
      (⟨c0, e.running⟩, [mkEvent c0 false])
  else if c0.currentState = .rest_period then
    if oldRestDuration ≠ restDuration then
      let elapsedTime := oldRestDuration * 60 - c0.remainingTime
      let newTotalTime := restDuration * 60
      let c1 := { c0 with remainingTime := max 0 (newTotalTime - elapsedTime) }
      if c1.remainingTime = 0 then
        handleTimerCompletion ⟨c1, e.running⟩
      else
        (⟨c1, e.running⟩, [mkEvent c1 false])
    else
      (⟨c0, e.running⟩, [mkEvent c0 false])
  else
    let wasWorkSession := c0.remainingTime > oldRestDuration * 60
    let c1 :=
      if wasWorkSession ∧ oldSessionDuration ≠ sessionDuration then
        let elapsedTime := oldSessionDuration * 60 - c0.remainingTime
        let newTotalTime := sessionDuration * 60
        { c0 with remainingTime := max 0 (newTotalTime - elapsedTime) }
      else if ¬wasWorkSession ∧ oldRestDuration ≠ restDuration then
        let elapsedTime := oldRestDuration * 60 - c0.remainingTime
        let newTotalTime := restDuration * 60
        { c0 with remainingTime := max 0 (newTotalTime - elapsedTime) }
      else
        c0
    (⟨c1, e.running⟩, [mkEvent c1 false])

end TimerManager

/-!
The persistence gateway of stateManager.ts.

The durable store (globalState under the timer-state key) holds a
JSON-serializable value; `Option RawRecord` models presence of a record,
and each field of `RawRecord` is an optional JS value (absent property
versus present value).  JS `Date` values and their ISO serializations
are both collapsed to the `JSVal.date` constructor carrying the epoch
millisecond value; `JSVal.str` models strings that are not parseable as
dates (in JS, `new Date` on such a string yields an Invalid Date whose
time value is `NaN` - it does not throw).  `NaN` results are modelled as
`none : Option Int`, with JS comparison semantics (every comparison with
`NaN` is false).
-/

/-- A stored JS value, as readable back from the extension global state.
Values read from JSON-serializable storage are never Symbols or BigInts,
so converting any of them with the Date constructor cannot throw. -/
inductive JSVal where
  | num (n : Int)
  | str (s : String)
  | date (t : Int)
  | jbool (b : Bool)
  | jnull
deriving DecidableEq

/-- A persisted record as stored: each property optionally present. -/
structure RawRecord where
  currentState : Option JSVal
  remainingTime : Option JSVal
  sessionStartTime : Option JSVal
  lastActiveTime : Option JSVal
  sessionCount : Option JSVal
  totalWorkTime : Option JSVal
  sessionDuration : Option JSVal
  restDuration : Option JSVal
deriving DecidableEq

/-- The TimerContext produced by StateManager.restoreState.  Numeric
fields that JS arithmetic can turn into NaN are Option Int (none = NaN);
sessionStartTime is an optional Date whose time value may itself be NaN
(an Invalid Date built from an unparsable stored value). -/
structure RTimerContext where
  currentState : TimerState
  remainingTime : Option Int
  sessionDuration : Int
  restDuration : Int
  sessionStartTime : Option (Option Int)
  pausedAt : Option Int
deriving DecidableEq

namespace StateManager

/-- The stable string tag of each TimerState enum member. -/
def stateTag : TimerState → String
  | .idle => "idle"
  | .work_session => "work_session"
  | .rest_period => "rest_period"
  | .paused => "paused"

/-- Parse a stored value back to a TimerState member, as
Object.values(TimerState).includes does with strict equality. -/
def parseState : JSVal → Option TimerState
  | .str "idle" => some .idle
  | .str "work_session" => some .work_session
  | .str "rest_period" => some .rest_period
  | .str "paused" => some .paused
  | _ => none

/-- The time value of new Date(v).getTime() for a stored value v:
numbers and dates give their value, null gives 0, booleans coerce to
0 or 1, and non-date strings give an Invalid Date (NaN time). -/
def jsDateGetTime : JSVal → Option Int
  | .num n => some n
  | .date t => some t
  | .str _ => none
  | .jbool b => some (if b then 1 else 0)
  | .jnull => some 0

/-- JS truthiness of an optional property value. -/
def jsTruthy : Option JSVal → Bool
  | none => false
  | some (.num n) => n ≠ 0
  | some (.str s) => s ≠ ""
  | some (.date _) => true
  | some (.jbool b) => b
  | some .jnull => false

/-- Extract a stored number; non-numbers give none (callers only reach
this after validation has established the field is a number). -/
def jsAsNum : Option JSVal → Option Int
  | some (.num n) => some n
  | _ => none

/-- Extract a stored number with default 0; under validation the
default is unreachable. -/
def numD (v : Option JSVal) : Int := (jsAsNum v).getD 0

/-- JS subtraction where either side may be NaN. -/
def jsSub : Option Int → Option Int → Option Int
  | some a, some b => some (a - b)
  | _, _ => none

/-- Math.max(0, x) where x may be NaN (NaN propagates). -/
def jsMax0 : Option Int → Option Int
  | some a => some (max 0 a)
  | none => none

/-- JS x <= 0 where x may be NaN (false on NaN). -/
def jsLe0 : Option Int → Bool
  | some a => a ≤ 0
  | none => false

/-- JS x >= k where x may be NaN (false on NaN). -/
def jsGeI : Option Int → Int → Bool
  | some a, k => k ≤ a
  | none, _ => false

/-- StateManager.saveState: build the persisted record from a timer
context, stamping lastActiveTime with the current time. -/
def saveState (timerContext : TimerContext) (now : Int)
    (sessionCount totalWorkTime : Int) : RawRecord :=
  { currentState := some (.str (stateTag timerContext.currentState))
    remainingTime := some (.num timerContext.remainingTime)
    sessionStartTime := timerContext.sessionStartTime.map (fun t => .date t)
    lastActiveTime := some (.date now)
    sessionCount := some (.num sessionCount)
    totalWorkTime := some (.num totalWorkTime)
    sessionDuration := some (.num timerContext.sessionDuration)
    restDuration := some (.num timerContext.restDuration) }

/-- StateManager.isValidPersistedState: all required properties present,
the phase tag one of the four enum values, remainingTime a number that
is not negative, durations numbers within 1..120 and 1..60.  The final
date-validation block of the source wraps Date construction in
try/catch, but the Date constructor does not throw on any
JSON-serializable value (an unparsable input merely yields an Invalid
Date), so that block never rejects and is embedded as vacuously true. -/
def isValidPersistedState (state : RawRecord) : Bool :=
  state.currentState.isSome && state.remainingTime.isSome &&
  state.lastActiveTime.isSome && state.sessionCount.isSome &&
  state.totalWorkTime.isSome && state.sessionDuration.isSome &&
  state.restDuration.isSome &&
  (state.currentState = some (.str "idle") ||
   state.currentState = some (.str "work_session") ||
   state.currentState = some (.str "rest_period") ||
   state.currentState = some (.str "paused")) &&
  (match state.remainingTime with
   | some (.num n) => decide (0 ≤ n)
   | _ => false) &&
  (match state.sessionDuration with
   | some (.num n) => decide (1 ≤ n ∧ n ≤ 120)
   | _ => false) &&
  (match state.restDuration with
   | some (.num n) => decide (1 ≤ n ∧ n ≤ 60)
   | _ => false) &&
  true

/-- StateManager.createIdleContext. -/
def createIdleContext (sessionDuration restDuration : Int) : RTimerContext :=
  { currentState := .idle
    remainingTime := some 0
    sessionDuration := sessionDuration
    restDuration := restDuration
    sessionStartTime := none
    pausedAt := none }

/-- The restored sessionStartTime: a Date when the stored property is
truthy, undefined otherwise. -/
def restoredStart (v : Option JSVal) : Option (Option Int) :=
  if jsTruthy v then some (jsDateGetTime (v.getD .jnull)) else none

/-- StateManager.createTimerContextFromPersisted: the stored fields read
back as-is; pausedAt is stamped with a fresh Date when the stored phase
is paused.  The default in the phase conversion is unreachable: callers
validate the record first. -/
def createTimerContextFromPersisted (persistedState : RawRecord) (now : Int) :
    RTimerContext :=
  { currentState := ((persistedState.currentState.getD .jnull) |> parseState).getD .idle
    remainingTime := jsAsNum persistedState.remainingTime
    sessionDuration := numD persistedState.sessionDuration
    restDuration := numD persistedState.restDuration
    sessionStartTime := restoredStart persistedState.sessionStartTime
    pausedAt := if persistedState.currentState = some (.str "paused")
                then some now else none }

/-- StateManager.handleExpiredSession: an expired WORK_SESSION chains
into the rest period when the overflow past expiry is smaller than the
rest duration, otherwise to idle; an expired REST_PERIOD (and the
fallback) goes to idle. -/
def handleExpiredSession (persistedState : RawRecord)
    (timeDifference : Option Int) (now : Int) : RTimerContext :=
  let sessionDuration := numD persistedState.sessionDuration
  let restDuration := numD persistedState.restDuration
  let restDurationSeconds := restDuration * 60
  if persistedState.currentState = some (.str "work_session") then
    let timeAfterWorkSession := jsSub timeDifference (jsAsNum persistedState.remainingTime)
    if jsGeI timeAfterWorkSession restDurationSeconds then
      createIdleContext sessionDuration restDuration
    else
      { currentState := .rest_period
        remainingTime := jsSub (some restDurationSeconds) timeAfterWorkSession
        sessionDuration := sessionDuration
        restDuration := restDuration
        sessionStartTime := some (timeAfterWorkSession.map (fun d => now - d * 1000))
        pausedAt := none }
  else if persistedState.currentState = some (.str "rest_period") then
    createIdleContext sessionDuration restDuration
  else
    createIdleContext sessionDuration restDuration

/-- StateManager.restoreState: read the record; null when absent;
validate, clearing the record and returning null when invalid; return
idle and paused records as-is; otherwise reconcile the remaining time
against the elapsed wall-clock seconds, delegating to
handleExpiredSession when the adjusted remaining time is not positive.
Returns the restored context together with the storage after the call
(the second component models the effect of clearState). -/
def restoreState (now : Int) (storage : Option RawRecord) :
    Option RTimerContext × Option RawRecord :=
  match storage with
  | none => (none, none)
  | some persistedState =>
    if isValidPersistedState persistedState then
      let lastActiveTime := jsDateGetTime (persistedState.lastActiveTime.getD .jnull)
      let timeDifference := lastActiveTime.map (fun t => (now - t).fdiv 1000)
      if persistedState.currentState = some (.str "idle") ∨
         persistedState.currentState = some (.str "paused") then
        (some (createTimerContextFromPersisted persistedState now), some persistedState)
      else
        let adjustedRemainingTime :=
          jsMax0 (jsSub (jsAsNum persistedState.remainingTime) timeDifference)
        if jsLe0 adjustedRemainingTime then
          (some (handleExpiredSession persistedState timeDifference now), some persistedState)
        else
          (some { currentState :=
                    ((persistedState.currentState.getD .jnull) |> parseState).getD .idle
                  remainingTime := adjustedRemainingTime
                  sessionDuration := numD persistedState.sessionDuration
                  restDuration := numD persistedState.restDuration
                  sessionStartTime := restoredStart persistedState.sessionStartTime
                  pausedAt := none },
           some persistedState)
    else
      (none, none)

end StateManager

/-!
Concrete fixtures used by the theorems below.
-/

open TimerManager StateManager

/-- A TimerManager paused while a work session still had 200 seconds
left out of the original 25-minute session (1300 seconds elapsed), with
the default 5-minute rest duration. -/
def pausedWorkEngine : Engine :=
  ⟨⟨.paused, 200, 25, 5, some 1300000, some 0⟩, false⟩

/-- A paused engine whose remaining time has reached 0. -/
def pausedZeroEngine : Engine :=
  ⟨⟨.paused, 0, 25, 5, some 7000, some 3000⟩, false⟩

/-- A structurally complete persisted record whose lastActiveTime is a
string that no JS engine parses as a date. -/
def unparsableDateRecord : RawRecord :=
  { currentState := some (.str "paused")
    remainingTime := some (.num 900)
    sessionStartTime := some (.date 0)
    lastActiveTime := some (.str "not-a-date")
    sessionCount := some (.num 0)
    totalWorkTime := some (.num 0)
    sessionDuration := some (.num 25)
    restDuration := some (.num 5) }

/-- A persisted work-session record: 1500 seconds remaining, saved at
time 0, with a 25-minute session and 5-minute rest. -/
def workRecord1500 : RawRecord :=
  { currentState := some (.str "work_session")
    remainingTime := some (.num 1500)
    sessionStartTime := some (.date 0)
    lastActiveTime := some (.date 0)
    sessionCount := some (.num 1)
    totalWorkTime := some (.num 0)
    sessionDuration := some (.num 25)
    restDuration := some (.num 5) }

/-- A valid persisted paused record. -/
def pausedRecord : RawRecord :=
  { currentState := some (.str "paused")
    remainingTime := some (.num 900)
    sessionStartTime := some (.date 123)
    lastActiveTime := some (.date 0)
    sessionCount := some (.num 2)
    totalWorkTime := some (.num 120)
    sessionDuration := some (.num 25)
    restDuration := some (.num 5) }

/-- The invariant on sessionStartTime that the engine operations
actually preserve: the field is set in every non-idle phase (it is
retained through pause, because resume infers the phase from it). -/
def SessionStartInv (c : TimerContext) : Prop :=
  c.currentState ≠ .idle → c.sessionStartTime ≠ none

/-- A running work session with 2 seconds remaining. -/
def workEngine2 : Engine := ⟨⟨.work_session, 2, 25, 5, none, some 0⟩, true⟩

/-!
Claim theorems.
-/

/-- Claim C1 (code bug): pausing a REST_PERIOD and resuming does not
return to REST_PERIOD.  Because pause leaves sessionStartTime set (and
startRest sets it too), resume infers WORK_SESSION whenever remaining
time is positive: after startRest, pause, resume the engine is in
WORK_SESSION with the rest period remaining time of 300 seconds, not in
REST_PERIOD as the claim requires. -/
theorem c1_resume_after_paused_rest_is_work :
    (resume (pause (startRest (initEngine 25 5) 0).1 1000).1).1.context.currentState
        = TimerState.work_session ∧
    (resume (pause (startRest (initEngine 25 5) 0).1 1000).1).1.context.remainingTime = 300 := by
  decide

/-- Claim C5 (code bug): a structurally complete record whose
lastActiveTime is an unparsable string passes isValidPersistedState
(the Date constructor never throws, so the try/catch date check is
vacuous), and restoreState returns the stored paused state instead of
null, leaving the record in place. -/
theorem c5_unparsable_timestamp_accepted :
    isValidPersistedState unparsableDateRecord = true ∧
    (restoreState 123456 (some unparsableDateRecord)).1
        = some ⟨.paused, some 900, 25, 5, some (some 0), some 123456⟩ ∧
    (restoreState 123456 (some unparsableDateRecord)).2 = some unparsableDateRecord := by
  decide

/-- Claim C6 (code bug): updateDurations on an engine paused from a work
session with 200 seconds remaining (at most the old rest duration of
300 seconds) misclassifies the pause as a rest period; since the rest
duration is unchanged it leaves remaining time at 200, whereas the
claimed rescaling max(0, newDurationSeconds - elapsedSeconds) gives
max(0, 30*60 - (25*60 - 200)) = 500. -/
theorem c6_paused_rescale_misclassified :
    (updateDurations pausedWorkEngine 30 5).1.context.remainingTime = 200 ∧
    max 0 (30 * 60 - (25 * 60 - pausedWorkEngine.context.remainingTime)) = 500 := by
  decide

/-- Claim C9 (code bug): neither the constructor nor updateDurations
validates or clamps durations; out-of-range values are stored verbatim
and propagate (a session started from duration -1 gets remaining -60
seconds), violating the claimed 1..120 and 1..60 bounds. -/
theorem c9_durations_stored_verbatim :
    (initEngine (-1) 0).context.sessionDuration = -1 ∧
    (initEngine (-1) 0).context.restDuration = 0 ∧
    (startSession (initEngine (-1) 0) 0).1.context.remainingTime = -60 ∧
    (updateDurations (initEngine 25 5) 150 0).1.context.sessionDuration = 150 ∧
    (updateDurations (initEngine 25 5) 150 0).1.context.restDuration = 0 := by
  decide

/-- Claim C3, counterexample: from WORK_SESSION with remainingTime = 2,
two ticks do not reach IDLE and emit no completion: the engine is still
in WORK_SESSION with remaining 0 (completion only fires on the next
tick). -/
theorem c3_counterexample_r_ticks_not_idle :
    ¬ ((tickN ⟨⟨.work_session, 2, 25, 5, none, some 0⟩, true⟩ 2).1.context.currentState
          = TimerState.idle ∧
       (completions (tickN ⟨⟨.work_session, 2, 25, 5, none, some 0⟩, true⟩ 2).2).length = 1) := by
  decide

/-- Claim C4, counterexample: after startSession then pause, the engine
is PAUSED yet sessionStartTime is still set, refuting the claimed
equivalence that phaseStartedAt is set iff the phase is WORK_SESSION or
REST_PERIOD. -/
theorem c4_counterexample_pause_keeps_start :
    (pause (startSession (initEngine 25 5) 0).1 3000).1.context.currentState
        = TimerState.paused ∧
    (pause (startSession (initEngine 25 5) 0).1 3000).1.context.sessionStartTime ≠ none := by
  decide

/-- Claim C7, counterexample: a reachable WORK_SESSION state with
remaining 0 (the state after ticking a session down to 0, one tick
before completion) does not round-trip: saving it and loading with zero
elapsed time takes the expired-session path and yields REST_PERIOD, not
the saved phase. -/
theorem c7_counterexample_zero_remaining_roundtrip :
    ((restoreState 0 (some (saveState ⟨.work_session, 0, 25, 5, none, some 0⟩ 0 0 0))).1).map
        RTimerContext.currentState
      ≠ some (TimerContext.currentState ⟨.work_session, 0, 25, 5, none, some 0⟩) := by
  decide

/-- Claim C10 (confirmed): resuming a PAUSED engine whose remaining time
is 0 lands in IDLE with remaining 0 and does not restart the interval
timer. -/
theorem c10_resume_zero_remaining_idle (e : Engine)
    (hp : e.context.currentState = .paused)
    (hpa : e.context.pausedAt ≠ none)
    (hr : e.context.remainingTime = 0)
    (hrun : e.running = false) :
    (resume e).1.context.currentState = TimerState.idle ∧
    (resume e).1.context.remainingTime = 0 ∧
    (resume e).1.running = false := by
  simp [resume, hp, hpa, hr, hrun]

/-- Claim C10, witness: the theorem applied to a concrete paused engine
with remaining 0. -/
theorem c10_resume_zero_remaining_idle_witness :
    (resume pausedZeroEngine).1.context.currentState = TimerState.idle ∧
    (resume pausedZeroEngine).1.context.remainingTime = 0 ∧
    (resume pausedZeroEngine).1.running = false :=
  c10_resume_zero_remaining_idle pausedZeroEngine (by decide) (by decide) (by decide) (by decide)

/-- Filtering completion events distributes over concatenation. -/
theorem completions_append (a b : List TimerEventData) :
    completions (a ++ b) = completions a ++ completions b := by
  simp [completions, List.filter_append]

/-- Running tick n times from a WORK_SESSION with remaining time r, for
n at most r, only decrements the remaining time and emits no completion
event. -/
theorem tickN_work_run (n : Nat) :
    ∀ (r : Nat) (e : Engine),
      e.context.currentState = .work_session →
      e.context.remainingTime = (r : Int) →
      n ≤ r →
      (tickN e n).1 = ⟨{ e.context with remainingTime := ((r - n : Nat) : Int) }, e.running⟩ ∧
      completions (tickN e n).2 = [] := by
  induction n with
  | zero =>
    intro r e hs hr hn
    obtain ⟨⟨cs, rt, sd, rd, pa, st⟩, run⟩ := e
    simp_all [tickN, completions]
  | succ n ih =>
    intro r e hs hr hn
    have hrpos : 0 < r := lt_of_lt_of_le (Nat.succ_pos n) hn
    have hpos : e.context.remainingTime > 0 := by
      rw [hr]; exact_mod_cast hrpos
    have hstep : tick e =
        (⟨{ e.context with remainingTime := e.context.remainingTime - 1 }, e.running⟩,
         [mkEvent { e.context with remainingTime := e.context.remainingTime - 1 } false]) := by
      simp [tick, hpos]
    have hrec := ih (r - 1) ⟨{ e.context with remainingTime := e.context.remainingTime - 1 }, e.running⟩
      (by simpa using hs)
      (by simp [hr]; omega)
      (by omega)
    obtain ⟨⟨cs, rt, sd, rd, pa, st⟩, run⟩ := e
    simp only [tickN, hstep]
    constructor
    · rw [hrec.1]
      simp
      omega
    · rw [completions_append, hrec.2]
      simp [completions, mkEvent]

/-- tickN splits over addition of tick counts. -/
theorem tickN_add (m n : Nat) : ∀ e : Engine,
    tickN e (m + n) =
      ((tickN (tickN e m).1 n).1, (tickN e m).2 ++ (tickN (tickN e m).1 n).2) := by
  induction m with
  | zero => intro e; simp [tickN]
  | succ m ih =>
    intro e
    have hm : m + 1 + n = (m + n) + 1 := by omega
    rw [hm]
    simp only [tickN, ih (tick e).1]
    simp [List.append_assoc]

/-- Claim C3 (amended): from WORK_SESSION with remaining r, n ticks with
n < r leave the phase WORK_SESSION with remaining r - n and no
completion event; exactly r ticks leave the engine still in
WORK_SESSION with remaining 0; it takes r + 1 ticks to transition to
IDLE, and that run emits exactly one completion event, tagged
WORK_SESSION. -/
theorem c3_tick_progress_amended (e : Engine) (r n : Nat)
    (hs : e.context.currentState = .work_session)
    (hr : e.context.remainingTime = (r : Int))
    (hn : n < r) :
    ((tickN e n).1.context.currentState = TimerState.work_session ∧
     (tickN e n).1.context.remainingTime = ((r - n : Nat) : Int) ∧
     completions (tickN e n).2 = []) ∧
    ((tickN e r).1.context.currentState = TimerState.work_session ∧
     (tickN e r).1.context.remainingTime = 0) ∧
    ((tickN e (r + 1)).1.context.currentState = TimerState.idle ∧
     completions (tickN e (r + 1)).2 = [⟨TimerState.work_session, 0, true⟩]) := by
  have h1 := tickN_work_run n r e hs hr (le_of_lt hn)
  have h2 := tickN_work_run r r e hs hr le_rfl
  have h3 := tickN_add r 1 e
  refine ⟨⟨?_, ?_, h1.2⟩, ⟨?_, ?_⟩, ?_, ?_⟩
  · rw [h1.1]; simpa using hs
  · rw [h1.1]
  · rw [h2.1]; simpa using hs
  · rw [h2.1]; simp
  · rw [h3]
    simp only
    rw [h2.1]
    simp [tickN, tick, handleTimerCompletion, mkEvent, hs]
  · rw [h3]
    simp only
    rw [completions_append, h2.2, h2.1]
    simp [tickN, tick, handleTimerCompletion, mkEvent, completions, hs]

/-- Claim C3, witness: from a work session with remaining 2, one tick
leaves WORK_SESSION with remaining 1; three ticks reach IDLE with
exactly one WORK_SESSION completion event. -/
theorem c3_tick_progress_amended_witness :
    (tickN workEngine2 1).1.context.currentState = TimerState.work_session ∧
    (tickN workEngine2 1).1.context.remainingTime = 1 ∧
    (tickN workEngine2 3).1.context.currentState = TimerState.idle ∧
    completions (tickN workEngine2 3).2 = [⟨TimerState.work_session, 0, true⟩] := by
  have h := c3_tick_progress_amended workEngine2 2 1 rfl (by decide) (by decide)
  exact ⟨h.1.1, by simpa using h.1.2.1, h.2.2.1, h.2.2.2⟩

/-- handleTimerCompletion preserves the sessionStartTime invariant. -/
theorem handleTimerCompletion_inv (e : Engine) (h : SessionStartInv e.context) :
    SessionStartInv (handleTimerCompletion e).1.context := by
  unfold handleTimerCompletion
  by_cases hc : e.context.currentState = .work_session ∨ e.context.currentState = .rest_period
  · simp [hc, SessionStartInv]
  · simp only [hc, if_false]
    exact h

/-- Claim C4 (amended): every engine operation preserves the invariant
that sessionStartTime is set whenever the phase is not IDLE.  The
claimed stronger invariant - set iff the phase is WORK_SESSION or
REST_PERIOD - fails because pause retains sessionStartTime (resume
depends on it), and resume of an expired pause leaves it set in IDLE. -/
theorem c4_invariant_amended :
    (∀ s r : Int, SessionStartInv (initEngine s r).context) ∧
    (∀ (e : Engine) (now : Int), SessionStartInv (startSession e now).1.context) ∧
    (∀ (e : Engine) (now : Int), SessionStartInv (startRest e now).1.context) ∧
    (∀ (e : Engine) (now : Int),
      SessionStartInv e.context → SessionStartInv (pause e now).1.context) ∧
    (∀ e : Engine, SessionStartInv e.context → SessionStartInv (resume e).1.context) ∧
    (∀ e : Engine, SessionStartInv (reset e).1.context) ∧
    (∀ e : Engine, SessionStartInv e.context → SessionStartInv (tick e).1.context) ∧
    (∀ (e : Engine) (s r : Int),
      SessionStartInv e.context → SessionStartInv (updateDurations e s r).1.context) := by
  refine ⟨?_, ?_, ?_, ?_, ?_, ?_, ?_, ?_⟩
  · intro s r
    simp [SessionStartInv, initEngine]
  · intro e now
    simp [SessionStartInv, startSession]
  · intro e now
    simp [SessionStartInv, startRest]
  · intro e now h
    unfold pause
    split
    · rename_i hc
      intro _
      apply h
      rcases hc with hc | hc <;> simp [hc]
    · exact h
  · intro e h
    unfold resume
    split
    · rename_i hc
      simp only [SessionStartInv] at h ⊢
      intro _
      apply h
      simp [hc.1]
    · exact h
  · intro e
    simp [SessionStartInv, reset]
  · intro e h
    unfold tick
    split
    · exact h
    · exact handleTimerCompletion_inv e h
  · intro e s r h
    unfold updateDurations
    by_cases h1 : e.context.currentState = .idle
    · simp [h1, SessionStartInv]
    · by_cases h2 : e.context.currentState = .work_session
      · by_cases h3 : e.context.sessionDuration = s
        · simp [h1, h2, h3]
          intro hne
          exact h (by simp [h2])
        · simp [h1, h2, h3]
          split
          · apply handleTimerCompletion_inv
            intro hne
            exact h (by simp [h2])
          · intro hne
            exact h (by simp [h2])
      · by_cases h4 : e.context.currentState = .rest_period
        · by_cases h5 : e.context.restDuration = r
          · simp [h1, h2, h4, h5]
            intro hne
            exact h (by simp [h4])
          · simp [h1, h2, h4, h5]
            split
            · apply handleTimerCompletion_inv
              intro hne
              exact h (by simp [h4])
            · intro hne
              exact h (by simp [h4])
        · simp [h1, h2, h4]
          split
          · intro hne
            exact h h1
          · split
            · intro hne
              exact h h1
            · intro hne
              exact h h1

/-- Claim C4, witness: the pause component of the invariant theorem
applied to a freshly started session. -/
theorem c4_invariant_amended_witness :
    SessionStartInv (pause (startSession (initEngine 25 5) 0).1 3000).1.context :=
  c4_invariant_amended.2.2.2.1 (startSession (initEngine 25 5) 0).1 3000 (fun _ => by decide)

/-- Claim C2 (confirmed): restoring a valid WORK_SESSION or REST_PERIOD
record whose elapsed downtime (floor of seconds since lastActiveTime)
is at least the stored remaining time reconciles as claimed: an expired
work session with overflow below the rest duration becomes REST_PERIOD
with the rest of the rest period remaining; with overflow at least the
rest duration it becomes IDLE with remaining 0; an expired rest period
always becomes IDLE with remaining 0. -/
theorem c2_expired_reconciliation (rec : RawRecord) (now t rem sd rd : Int)
    (hvalid : isValidPersistedState rec = true)
    (hlast : rec.lastActiveTime = some (.date t))
    (hrem : rec.remainingTime = some (.num rem))
    (hsd : rec.sessionDuration = some (.num sd))
    (hrd : rec.restDuration = some (.num rd))
    (helapsed : rem ≤ (now - t).fdiv 1000) :
    (rec.currentState = some (.str "work_session") →
       (now - t).fdiv 1000 - rem < rd * 60 →
       (restoreState now (some rec)).1 =
         some ⟨.rest_period, some (rd * 60 - ((now - t).fdiv 1000 - rem)), sd, rd,
               some (some (now - ((now - t).fdiv 1000 - rem) * 1000)), none⟩) ∧
    (rec.currentState = some (.str "work_session") →
       rd * 60 ≤ (now - t).fdiv 1000 - rem →
       (restoreState now (some rec)).1 = some ⟨.idle, some 0, sd, rd, none, none⟩) ∧
    (rec.currentState = some (.str "rest_period") →
       (restoreState now (some rec)).1 = some ⟨.idle, some 0, sd, rd, none, none⟩) := by
  have hle : max (0 : Int) (rem - (now - t).fdiv 1000) ≤ 0 := by
    rw [max_le_iff]
    omega
  refine ⟨?_, ?_, ?_⟩
  · intro hcur hover
    unfold restoreState
    simp [hvalid, hcur, hlast, hrem, hsd, hrd, jsDateGetTime, jsSub, jsMax0, jsLe0, hle,
      handleExpiredSession, jsAsNum, numD, jsGeI, createIdleContext, not_le.mpr hover]
  · intro hcur hover
    unfold restoreState
    simp [hvalid, hcur, hlast, hrem, hsd, hrd, jsDateGetTime, jsSub, jsMax0, jsLe0, hle,
      handleExpiredSession, jsAsNum, numD, jsGeI, createIdleContext, hover]
  · intro hcur
    unfold restoreState
    simp [hvalid, hcur, hlast, hrem, hsd, hrd, jsDateGetTime, jsSub, jsMax0, jsLe0, hle,
      handleExpiredSession, jsAsNum, numD, jsGeI, createIdleContext]

/-- Claim C2, witness: the spec example - a work session saved with
1500 seconds remaining and loaded 1620 seconds later (overflow 120,
rest duration 5 minutes) restores to REST_PERIOD with 180 seconds
remaining. -/
theorem c2_expired_reconciliation_witness :
    (restoreState 1620000 (some workRecord1500)).1 =
      some ⟨.rest_period, some 180, 25, 5, some (some 1500000), none⟩ := by
  have h := (c2_expired_reconciliation workRecord1500 1620000 0 1500 25 5
    (by decide) rfl rfl rfl rfl (by decide)).1 rfl (by decide)
  exact h

/-- Claim C7 (amended): save followed by an immediate load (zero
elapsed time) returns a state equal to the saved one on phase,
remaining time and both durations, for every engine state whose
durations satisfy the bounds, whose remaining time is not negative,
and - the amendment - whose remaining time is positive when the phase
is WORK_SESSION or REST_PERIOD (a running state saved with remaining 0
instead takes the expired-session path). -/
theorem c7_roundtrip_amended (c : TimerContext) (now sessionCount totalWorkTime : Int)
    (hsd1 : 1 ≤ c.sessionDuration) (hsd2 : c.sessionDuration ≤ 120)
    (hrd1 : 1 ≤ c.restDuration) (hrd2 : c.restDuration ≤ 60)
    (hrem : 0 ≤ c.remainingTime)
    (hrun : c.currentState = .work_session ∨ c.currentState = .rest_period →
            0 < c.remainingTime) :
    ((restoreState now (some (saveState c now sessionCount totalWorkTime))).1).map
        RTimerContext.currentState = some c.currentState ∧
    ((restoreState now (some (saveState c now sessionCount totalWorkTime))).1).map
        RTimerContext.remainingTime = some (some c.remainingTime) ∧
    ((restoreState now (some (saveState c now sessionCount totalWorkTime))).1).map
        RTimerContext.sessionDuration = some c.sessionDuration ∧
    ((restoreState now (some (saveState c now sessionCount totalWorkTime))).1).map
        RTimerContext.restDuration = some c.restDuration := by
  have hvalid : isValidPersistedState (saveState c now sessionCount totalWorkTime) = true := by
    cases hc : c.currentState <;>
      simp [isValidPersistedState, saveState, stateTag, hc, hsd1, hsd2, hrd1, hrd2, hrem]
  cases hc : c.currentState
  case idle =>
    simp only [saveState, stateTag, hc] at hvalid
    unfold restoreState
    simp [hvalid, saveState, stateTag, hc, createTimerContextFromPersisted, jsAsNum, numD,
      parseState, restoredStart, jsTruthy]
  case paused =>
    simp only [saveState, stateTag, hc] at hvalid
    unfold restoreState
    simp [hvalid, saveState, stateTag, hc, createTimerContextFromPersisted, jsAsNum, numD,
      parseState, restoredStart, jsTruthy]
  case work_session =>
    have hpos : 0 < c.remainingTime := hrun (Or.inl hc)
    simp only [saveState, stateTag, hc] at hvalid
    unfold restoreState
    simp [hvalid, saveState, stateTag, hc, jsDateGetTime, jsSub, jsMax0, jsLe0, jsAsNum, numD,
      parseState, Int.zero_fdiv, max_eq_right hrem, not_le.mpr hpos]
  case rest_period =>
    have hpos : 0 < c.remainingTime := hrun (Or.inr hc)
    simp only [saveState, stateTag, hc] at hvalid
    unfold restoreState
    simp [hvalid, saveState, stateTag, hc, jsDateGetTime, jsSub, jsMax0, jsLe0, jsAsNum, numD,
      parseState, Int.zero_fdiv, max_eq_right hrem, not_le.mpr hpos]

/-- Claim C7, witness: a running work session with 1500 seconds
remaining round-trips exactly through save and immediate load. -/
theorem c7_roundtrip_amended_witness :
    ((restoreState 42 (some (saveState ⟨.work_session, 1500, 25, 5, none, some 0⟩ 42 7 99))).1).map
        RTimerContext.currentState = some TimerState.work_session ∧
    ((restoreState 42 (some (saveState ⟨.work_session, 1500, 25, 5, none, some 0⟩ 42 7 99))).1).map
        RTimerContext.remainingTime = some (some 1500) ∧
    ((restoreState 42 (some (saveState ⟨.work_session, 1500, 25, 5, none, some 0⟩ 42 7 99))).1).map
        RTimerContext.sessionDuration = some 25 ∧
    ((restoreState 42 (some (saveState ⟨.work_session, 1500, 25, 5, none, some 0⟩ 42 7 99))).1).map
        RTimerContext.restDuration = some 5 :=
  c7_roundtrip_amended ⟨.work_session, 1500, 25, 5, none, some 0⟩ 42 7 99
    (by decide) (by decide) (by decide) (by decide) (by decide) (fun _ => by decide)

/-- Claim C8 (confirmed): a valid record whose phase is IDLE or PAUSED
restores, at every load time, to the stored phase, remaining time,
durations and stored sessionStartTime timestamp, with no drift
adjustment, and the record is not erased.  The only field not taken
from the record is pausedAt, which is not persisted at all and is
freshly stamped for PAUSED records. -/
theorem c8_idle_paused_restore (rec : RawRecord) (rem sd rd : Int)
    (hvalid : isValidPersistedState rec = true)
    (hcur : rec.currentState = some (.str "idle") ∨ rec.currentState = some (.str "paused"))
    (hrem : rec.remainingTime = some (.num rem))
    (hsd : rec.sessionDuration = some (.num sd))
    (hrd : rec.restDuration = some (.num rd)) :
    ∀ now : Int,
      (rec.currentState = some (.str "idle") →
        ((restoreState now (some rec)).1).map RTimerContext.currentState =
          some TimerState.idle) ∧
      (rec.currentState = some (.str "paused") →
        ((restoreState now (some rec)).1).map RTimerContext.currentState =
          some TimerState.paused) ∧
      ((restoreState now (some rec)).1).map RTimerContext.remainingTime = some (some rem) ∧
      ((restoreState now (some rec)).1).map RTimerContext.sessionDuration = some sd ∧
      ((restoreState now (some rec)).1).map RTimerContext.restDuration = some rd ∧
      ((restoreState now (some rec)).1).map RTimerContext.sessionStartTime =
        some (restoredStart rec.sessionStartTime) ∧
      (restoreState now (some rec)).2 = some rec := by
  intro now
  rcases hcur with hcur | hcur <;>
    · unfold restoreState
      simp [hvalid, hcur, hrem, hsd, hrd, createTimerContextFromPersisted, jsAsNum, numD,
        parseState]

/-- Claim C8, witness: a paused record with 900 seconds remaining
restored about 1000 seconds later keeps its phase, remaining time and
stored start timestamp, and the record stays in storage. -/
theorem c8_idle_paused_restore_witness :
    ((restoreState 999999 (some pausedRecord)).1).map RTimerContext.currentState =
      some TimerState.paused ∧
    ((restoreState 999999 (some pausedRecord)).1).map RTimerContext.remainingTime =
      some (some 900) ∧
    ((restoreState 999999 (some pausedRecord)).1).map RTimerContext.sessionStartTime =
      some (restoredStart pausedRecord.sessionStartTime) ∧
    (restoreState 999999 (some pausedRecord)).2 = some pausedRecord := by
  have h := c8_idle_paused_restore pausedRecord 900 25 5 (by decide) (Or.inr rfl)
    rfl rfl rfl 999999
  exact ⟨h.2.1 rfl, h.2.2.1, h.2.2.2.2.2.1, h.2.2.2.2.2.2⟩
